import Mathlib

/-!
Verification development for the tap-event gesture subsystem
(src/packages/core/src/events/TapEvent.ts) and the heatmap track helper
(src/packages/elements/src/heatmap/helpers/track.ts).

The TypeScript handlers are shallowly embedded as pure Lean functions:
each native-event listener becomes a function from the tracker state and
the event data to the list of synthetic events it dispatches plus the
updated state (and, where the source can raise, a Boolean recording that
an exception propagates out of the listener).
-/

/-- An event target in the composed path. Object identity of the DOM is
modelled by the id field: two targets are the same object iff they are
equal. The nodeType field mirrors Node.nodeType (1 = ELEMENT_NODE).
The three Boolean fields record the outcome of the instanceof check and
of the two selector matches used by the keyboard tracker. -/
structure EvtTarget where
  id : Nat
  nodeType : Nat
  isHTMLElement : Bool
  roleButton : Bool
  nativeActivatable : Bool
deriving DecidableEq, Repr

/-- A touch point; only the identifier is consulted by the tracker. -/
structure Touch where
  identifier : Int
deriving DecidableEq, Repr

/-- The three synthetic gesture event types. -/
inductive TapType where
  | tapstart
  | tap
  | tapend
deriving DecidableEq, Repr

/-- A record of one call to dispatchTapOnTarget: the synthetic type, the
target it was dispatched on (none models the JS value undefined being
passed as the target), and whether the source info handed to
dispatchTapOnTarget is a DOM Event (MouseEvent) as opposed to a Touch. -/
structure Dispatched where
  type : TapType
  target : Option EvtTarget
  infoIsEvent : Bool
deriving DecidableEq, Repr

/-- The three capability gates computed at installation time:
onTap, onTapEnd, onTapStart in the source. -/
structure Gates where
  onTap : Bool
  onTapEnd : Bool
  onTapStart : Bool
deriving DecidableEq, Repr

/-- The mutable state closed over by applyEvent: startTouch, currentTouch,
lastTapTarget, mouseEventPath, touchEventPath. -/
structure TapState where
  startTouch : Option Touch
  currentTouch : Int
  lastTapTarget : Option EvtTarget
  mouseEventPath : List EvtTarget
  touchEventPath : List EvtTarget
deriving DecidableEq, Repr

/-- The state right after installation: currentTouch is -1, no suppression
flag, empty stored paths. -/
def initialTapState : TapState :=
  { startTouch := none
    currentTouch := -1
    lastTapTarget := none
    mouseEventPath := []
    touchEventPath := [] }

/-- Cancellation propagation of dispatchTapOnTarget (TapEvent.ts lines
164 to 166): info.preventDefault() is called iff the synthetic TapEvent
had its default prevented and the info object is an instance of Event. -/
def dispatchPreventsNative (tapDefaultPrevented : Bool) (infoIsEvent : Bool) : Bool :=
  tapDefaultPrevented && infoIsEvent

/-- The mouseup listener reconciliation (TapEvent.ts lines 213 to 218):
whichever of the stored mousedown path and the current path is longer is
spliced from index 0 (its leaf end) so both have equal length, leaving
them aligned at the root. -/
def alignPaths (stored path : List EvtTarget) : List EvtTarget × List EvtTarget :=
  if stored.length < path.length then
    (stored, path.drop (path.length - stored.length))
  else if path.length < stored.length then
    (stored.drop (stored.length - path.length), path)
  else
    (stored, path)

/-- The touchend listener reconciliation (TapEvent.ts lines 268 to 270):
only the current path is spliced, and only when the stored touchstart
path is shorter; the stored path is never trimmed. -/
def touchAlignPaths (stored path : List EvtTarget) : List EvtTarget × List EvtTarget :=
  if stored.length < path.length then
    (stored, path.drop (path.length - stored.length))
  else
    (stored, path)

/-- The tap-target scan of the mouseup listener (TapEvent.ts lines 223 to
229): for i from 0 while i < storedPath.length - 1, the first index where
the stored path and the current path hold the same object and that object
has nodeType ELEMENT_NODE yields the tap target. The loop bound excludes
the last entry of the stored path, and exhausting the current path first
can never match (comparison against undefined is false). -/
def tapScan : List EvtTarget → List EvtTarget → Option EvtTarget
  | x :: x2 :: xs, y :: ys =>
      if x = y ∧ x.nodeType = 1 then some x else tapScan (x2 :: xs) ys
  | _, _ => none

/-- The mousedown listener (TapEvent.ts lines 174 to 184). It acts only
when no suppression flag is pending, event.target is truthy and
currentTouch is -1; it then stores the composed path and dispatches
tapstart on the innermost entry when present and gated on. -/
def mouseDownApply (g : Gates) (s : TapState) (targetPresent : Bool)
    (path : List EvtTarget) : List Dispatched × TapState :=
  if s.lastTapTarget = none ∧ targetPresent = true ∧ s.currentTouch = -1 then
    match path.head? with
    | some t =>
        ((if g.onTapStart then [⟨TapType.tapstart, some t, true⟩] else []),
         { s with mouseEventPath := path })
    | none => ([], { s with mouseEventPath := path })
  else
    ([], s)

/-- The mouseup listener (TapEvent.ts lines 191 to 230). If the
suppression flag is set it clears it and returns; otherwise it dispatches
tapend on the innermost current-path entry, stops when tap dispatch is
gated off, reconciles the two paths and scans them for the tap target. -/
def mouseUpApply (g : Gates) (s : TapState) (path : List EvtTarget) :
    List Dispatched × TapState :=
  if s.lastTapTarget ≠ none then
    ([], { s with lastTapTarget := none })
  else
    let dEnd : List Dispatched :=
      match path.head? with
      | some t => if g.onTapEnd then [⟨TapType.tapend, some t, true⟩] else []
      | none => []
    if g.onTap = false then
      (dEnd, s)
    else
      let aligned := alignPaths s.mouseEventPath path
      match tapScan aligned.1 aligned.2 with
      | some t =>
          (dEnd ++ [⟨TapType.tap, some t, true⟩], { s with mouseEventPath := aligned.1 })
      | none =>
          (dEnd, { s with mouseEventPath := aligned.1 })

/-- The touchstart listener (TapEvent.ts lines 237 to 247). It reads the
first changed touch (reading identifier of undefined throws when the list
is empty, before currentTouch or the stored path is updated), records it,
stores the composed path and dispatches tapstart on the innermost entry.
The last component records that an exception left the listener. -/
def touchStartApply (g : Gates) (s : TapState) (changedTouches : List Touch)
    (path : List EvtTarget) : List Dispatched × TapState × Bool :=
  match changedTouches.head? with
  | none => ([], { s with startTouch := none }, true)
  | some t =>
      let s1 : TapState :=
        { s with startTouch := some t, currentTouch := t.identifier, touchEventPath := path }
      match path.head? with
      | some tt =>
          ((if g.onTapStart then [⟨TapType.tapstart, some tt, false⟩] else []), s1, false)
      | none => ([], s1, false)

/-- The touchmove listener (TapEvent.ts lines 254 to 256): it
unconditionally invalidates the active touch. -/
def touchMoveApply (s : TapState) : TapState :=
  { s with currentTouch := -1 }

/-- The touchend listener (TapEvent.ts lines 263 to 286). The body runs in
a try block whose finally clause sets currentTouch to -1 on every exit
path; there is no catch clause, so an exception raised while using the
missing touch record (destructuring undefined, or reading its identifier)
still propagates out of the listener after the cleanup. The last
component records that an exception left the listener. -/
def touchEndApply (g : Gates) (s : TapState) (changedTouches : List Touch)
    (path : List EvtTarget) : List Dispatched × TapState × Bool :=
  let trimmed := (touchAlignPaths s.touchEventPath path).2
  match trimmed.head? with
  | none =>
      ([], { s with currentTouch := -1 }, false)
  | some tapTarget =>
      match changedTouches.head? with
      | none =>
          ([], { s with currentTouch := -1 }, true)
      | some touch =>
          let dEnd : List Dispatched :=
            if g.onTapEnd then [⟨TapType.tapend, some tapTarget, false⟩] else []
          if touch.identifier = s.currentTouch then
            (dEnd ++ (if g.onTap then [⟨TapType.tap, some tapTarget, false⟩] else []),
             { s with lastTapTarget := some tapTarget, currentTouch := -1 }, false)
          else
            (dEnd, { s with currentTouch := -1 }, false)

/-- The zero-detail click heuristic (TapEvent.ts lines 51 to 53): on the
Trident engine a PointerEvent is never treated as keyboard-generated;
otherwise a click with detail 0 is. -/
def isButtonEnterOrSpace (isIE : Bool) (isPointerEvent : Bool) (detail : Int) : Bool :=
  if isIE && isPointerEvent then false else decide (detail = 0)

/-- The click listener (TapEvent.ts lines 292 to 299). For a click
recognised as keyboard-generated it dispatches tap on the innermost
path entry with no existence guard: an empty path passes undefined
(modelled as none) straight to dispatchTapOnTarget. -/
def clickApply (g : Gates) (isIE isPointerEvent : Bool) (detail : Int)
    (path : List EvtTarget) : List Dispatched :=
  if isButtonEnterOrSpace isIE isPointerEvent detail then
    if g.onTap then [⟨TapType.tap, path.head?, true⟩] else []
  else
    []

/-- The Enter-or-Spacebar helper (TapEvent.ts lines 60 to 70): it returns
whether preventDefault was called on the key event and which element, if
any, was programmatically clicked. -/
def onEnterOrSpacebar (path : List EvtTarget) : Bool × Option EvtTarget :=
  match path.head? with
  | some t =>
      if t.isHTMLElement = true ∧ t.roleButton = true ∧ t.nativeActivatable = false then
        (true, some t)
      else
        (false, none)
  | none => (false, none)

/-- The keyup listener (TapEvent.ts lines 305 to 314): only the keys
Enter, Spacebar and the space character reach onEnterOrSpacebar. -/
def keyupApply (key : String) (path : List EvtTarget) : Bool × Option EvtTarget :=
  if key = "Enter" ∨ key = "Spacebar" ∨ key = " " then onEnterOrSpacebar path
  else (false, none)

/-- The presence of the three on-event properties on the installation
target before applyEvent runs. -/
structure TapSupportProps where
  ontap : Bool
  ontapstart : Bool
  ontapend : Bool
deriving DecidableEq, Repr

/-- The capability gates applyEvent computes (TapEvent.ts lines 83 to 95):
each gesture type is enabled iff its on-event property is absent. -/
def installGates (t : TapSupportProps) : Gates :=
  { onTap := !t.ontap, onTapEnd := !t.ontapend, onTapStart := !t.ontapstart }

/-- Installation (TapEvent.ts lines 77 to 323): when all three gates are
off, applyEvent returns before adding any listener (none); otherwise it
installs listeners driven by the computed gates and marks all three
on-event properties present. -/
def applyEventInstall (t : TapSupportProps) : Option Gates × TapSupportProps :=
  let g := installGates t
  if g.onTap = false ∧ g.onTapEnd = false ∧ g.onTapStart = false then
    (none, t)
  else
    (some g, { ontap := true, ontapstart := true, ontapend := true })

/-- The targets of the tap-typed events in a dispatch list. -/
def tapTargets (l : List Dispatched) : List (Option EvtTarget) :=
  (l.filter fun d => d.type = TapType.tap).map fun d => d.target

/-- The number of tap-typed events in a dispatch list. -/
def countTaps (l : List Dispatched) : Nat :=
  (l.filter fun d => d.type = TapType.tap).length

/-- The number of events of one type in a dispatch list. -/
def countType (ty : TapType) (l : List Dispatched) : Nat :=
  (l.filter fun d => d.type = ty).length

/-- Transcription of the claimed mouseup tap-target algorithm, following
its words: trim so the sequences have equal length and align at the root
(keep the last min-length entries of each), then walk both aligned
sequences from the outermost index inward and take the first index where
they reference the same object and it is an element node. -/
def specClaimTapTarget (mousePath path : List EvtTarget) : Option EvtTarget :=
  let n := min mousePath.length path.length
  let a := mousePath.drop (mousePath.length - n)
  let b := path.drop (path.length - n)
  (((a.zip b).reverse.find? fun q => decide (q.1 = q.2 ∧ q.1.nodeType = 1)).map
    fun q => q.1)

/-- Transcription of the amended mouseup tap-target algorithm: same
root-aligned trimming, then walk from the innermost index outward,
excluding the outermost (last) index, and take the first index where both
sequences reference the same object and it is an element node. -/
def specAmendedTapTarget (mousePath path : List EvtTarget) : Option EvtTarget :=
  let n := min mousePath.length path.length
  let a := mousePath.drop (mousePath.length - n)
  let b := path.drop (path.length - n)
  (((a.zip b).dropLast.find? fun q => decide (q.1 = q.2 ∧ q.1.nodeType = 1)).map
    fun q => q.1)

/-- A track in an arbitrary private state: lane sizes, lane start
positions, overall track size and per-side margin, all in pixels
(track.ts lines 8 to 12). Pixel arithmetic is modelled over the
rationals. -/
structure Track where
  laneSizes : List ℚ
  laneStarts : List ℚ
  trackSize : ℚ
  margin : ℚ
deriving DecidableEq, Repr

/-- Lane count (track.ts lines 34 to 36): the length of the lane-size
array. -/
def Track.laneCount (t : Track) : Nat :=
  t.laneSizes.length

/-- Lane size lookup (track.ts lines 108 to 110); a missing entry falls
back to 0 as the source does. -/
def Track.getLaneSize (t : Track) (index : Nat) : ℚ :=
  t.laneSizes.getD index 0

/-- Lane start lookup (track.ts lines 117 to 119); a missing entry falls
back to 0 as the source does. -/
def Track.getLaneStart (t : Track) (index : Nat) : ℚ :=
  t.laneStarts.getD index 0

/-- Lane end position (track.ts lines 126 to 128). -/
def Track.getLaneEnd (t : Track) (index : Nat) : ℚ :=
  t.getLaneStart index + t.getLaneSize index

/-- Content size (track.ts lines 135 to 138): lane size less both
margins, clamped below at 0. -/
def Track.getContentSize (t : Track) (index : Nat) : ℚ :=
  let contentSize := t.getLaneSize index - t.margin - t.margin
  if 0 < contentSize then contentSize else 0

/-- Content start position (track.ts lines 145 to 147). -/
def Track.getContentStart (t : Track) (index : Nat) : ℚ :=
  t.getLaneStart index + t.margin

/-- Content end position (track.ts lines 154 to 156). -/
def Track.getContentEnd (t : Track) (index : Nat) : ℚ :=
  t.getContentStart index + t.getContentSize index

/-- Sample element node, as mousedown leaf target. -/
def elemA : EvtTarget := ⟨1, 1, true, false, false⟩

/-- Sample element node, shared ancestor. -/
def elemB : EvtTarget := ⟨2, 1, true, false, false⟩

/-- Sample element node, as mouseup leaf target. -/
def elemC : EvtTarget := ⟨3, 1, true, false, false⟩

/-- Sample document node (nodeType 9, not an element). -/
def docNode : EvtTarget := ⟨9, 9, false, false, false⟩

/-- Sample div carrying role=button but not natively activatable. -/
def roleButtonDiv : EvtTarget := ⟨4, 1, true, true, false⟩

/-- Sample native button element (matches the natively-activatable set). -/
def nativeButton : EvtTarget := ⟨5, 1, true, true, true⟩

/-- Gates with every gesture type enabled, as after a first install. -/
def allGates : Gates := ⟨true, true, true⟩

/-- Sample touch point with a non-negative identifier. -/
def sampleTouch : Touch := ⟨7⟩

/-- Hit test (track.ts lines 163 to 177). In the source, laneSize 0 (or a
zero lane count) makes the floating-point divisions produce NaN or an
infinity, on which the range check fails and -1 is returned; that case is
made explicit here since rational division by zero has no NaN. Otherwise
the candidate index is the floor of mousePixel over laneSize, kept only
when it lies in range and mousePixel falls inside that lane's content
region. -/
def Track.hitTest (t : Track) (mousePixel : ℚ) : Int :=
  let laneSize := t.trackSize / (t.laneCount : ℚ)
  if laneSize = 0 then
    -1
  else
    let index : Int := ⌊mousePixel / laneSize⌋
    if 0 ≤ index ∧ index < (t.laneCount : Int) then
      if mousePixel < t.getContentStart index.toNat ∨
          t.getContentEnd index.toNat ≤ mousePixel then
        -1
      else
        index
    else
      -1

/-- The mouseup reconciliation keeps, of each path, its last min-length
entries: both sequences end up with equal length, aligned at the root. -/
theorem alignPaths_eq_dropMin (a b : List EvtTarget) :
    alignPaths a b =
      (a.drop (a.length - min a.length b.length),
       b.drop (b.length - min a.length b.length)) := by
  unfold alignPaths
  rcases lt_trichotomy a.length b.length with h | h | h
  · rw [if_pos h]
    have h1 : min a.length b.length = a.length := min_eq_left h.le
    rw [h1]
    simp
  · rw [if_neg (by omega), if_neg (by omega)]
    have h1 : min a.length b.length = a.length := by omega
    rw [h1]
    simp [h]
  · rw [if_neg (by omega), if_pos h]
    have h1 : min a.length b.length = b.length := by omega
    rw [h1]
    simp

/-- After reconciliation the two paths have equal length. -/
theorem alignPaths_length (a b : List EvtTarget) :
    (alignPaths a b).1.length = (alignPaths a b).2.length := by
  rw [alignPaths_eq_dropMin]
  simp only [List.length_drop]
  omega

/-- The source's scan loop over two equal-length paths equals the
declarative description: zip the paths, drop the last (outermost) pair,
and take the first pair holding the same element-node object. -/
theorem tapScan_eq_find (a b : List EvtTarget) (h : a.length = b.length) :
    tapScan a b =
      (((a.zip b).dropLast.find? fun q => decide (q.1 = q.2 ∧ q.1.nodeType = 1)).map
        fun q => q.1) := by
  induction a generalizing b with
  | nil => cases b <;> simp [tapScan]
  | cons x xs ih =>
    cases b with
    | nil => simp at h
    | cons y ys =>
      cases xs with
      | nil =>
        cases ys with
        | nil => simp [tapScan]
        | cons y2 ys2 => simp at h
      | cons x2 xs2 =>
        cases ys with
        | nil => simp at h
        | cons y2 ys2 =>
          have hlen : (x2 :: xs2).length = (y2 :: ys2).length := by
            simpa using h
          have hzip : ((x :: x2 :: xs2).zip (y :: y2 :: ys2)) =
              (x, y) :: (x2, y2) :: xs2.zip ys2 := by
            simp
          rw [hzip]
          rw [List.dropLast_cons₂]
          simp only [tapScan]
          by_cases hxy : x = y ∧ x.nodeType = 1
          · rw [if_pos hxy]
            rw [List.find?_cons_of_pos]
            · simp
            · simpa using hxy
          · rw [if_neg hxy]
            rw [List.find?_cons_of_neg]
            · have := ih (y2 :: ys2) hlen
              simpa using this
            · simpa using hxy

/-- C1 counterexample: with no suppression pending and tap dispatch
enabled, a mousedown path and mouseup path both equal to the single
element node elemB make the claimed algorithm (walk the aligned
sequences, outermost index inward, over every index) pick elemB, while
the code's loop bound i < length - 1 never examines that index and
dispatches no tap at all. -/
theorem tapEvent_mouseup_tapTarget_cx :
    tapTargets (mouseUpApply allGates
        { initialTapState with mouseEventPath := [elemB] } [elemB]).1 = [] ∧
    specClaimTapTarget [elemB] [elemB] = some elemB := by
  decide

/-- C1 (corrected): on mouseup with no suppression pending and tap
dispatch enabled, the tap target is computed by trimming both paths to
equal length aligned at the root, then walking from the innermost index
outward, excluding the outermost index, to the first index at which both
sequences reference the same object and that object is an element node;
if no such index exists, no tap is dispatched. -/
theorem tapEvent_mouseup_tapTarget_amended (g : Gates) (s : TapState) (path : List EvtTarget)
    (hsup : s.lastTapTarget = none) (htap : g.onTap = true) :
    tapTargets (mouseUpApply g s path).1 =
      ((specAmendedTapTarget s.mouseEventPath path).map some).toList := by
  have key : tapScan (alignPaths s.mouseEventPath path).1 (alignPaths s.mouseEventPath path).2
      = specAmendedTapTarget s.mouseEventPath path := by
    rw [tapScan_eq_find _ _ (alignPaths_length _ _)]
    unfold specAmendedTapTarget
    rw [alignPaths_eq_dropMin]
  rcases hscan : specAmendedTapTarget s.mouseEventPath path with _ | t
  · have hs2 := key.trans hscan
    cases hp : path.head? <;> cases hE : g.onTapEnd <;>
      simp [mouseUpApply, hsup, htap, hs2, hp, hE, tapTargets]
  · have hs2 := key.trans hscan
    cases hp : path.head? <;> cases hE : g.onTapEnd <;>
      simp [mouseUpApply, hsup, htap, hs2, hp, hE, tapTargets]

/-- Witness for C1: a concrete mousedown path and mouseup path differing
at the leaf but sharing the element node elemB and the document node. -/
theorem tapEvent_mouseup_tapTarget_amended_wit :
    tapTargets (mouseUpApply allGates
        { initialTapState with mouseEventPath := [elemA, elemB, docNode] }
        [elemC, elemB, docNode]).1 =
      ((specAmendedTapTarget [elemA, elemB, docNode] [elemC, elemB, docNode]).map some).toList :=
  tapEvent_mouseup_tapTarget_amended allGates
    { initialTapState with mouseEventPath := [elemA, elemB, docNode] }
    [elemC, elemB, docNode] rfl rfl

/-- C2 (confirmed): a touchstart+touchend pair that fires a touch tap
sets the suppression flag; the following mousedown does nothing while the
flag is set, and the following mouseup clears the flag and returns
without dispatching, so the whole touch-then-synthetic-mouse sequence
yields exactly one tap in total. -/
theorem tapEvent_touch_suppression (g : Gates) (s : TapState) (t : Touch)
    (e : EvtTarget) (rest mdPath muPath : List EvtTarget) (pres : Bool)
    (htap : g.onTap = true) :
    countTaps (touchStartApply g s [t] (e :: rest)).1 = 0 ∧
    (touchEndApply g (touchStartApply g s [t] (e :: rest)).2.1 [t] (e :: rest)).2.1.lastTapTarget
      = some e ∧
    countTaps (touchEndApply g (touchStartApply g s [t] (e :: rest)).2.1 [t] (e :: rest)).1 = 1 ∧
    (mouseDownApply g
      (touchEndApply g (touchStartApply g s [t] (e :: rest)).2.1 [t] (e :: rest)).2.1
      pres mdPath).1 = [] ∧
    (mouseDownApply g
      (touchEndApply g (touchStartApply g s [t] (e :: rest)).2.1 [t] (e :: rest)).2.1
      pres mdPath).2 =
      (touchEndApply g (touchStartApply g s [t] (e :: rest)).2.1 [t] (e :: rest)).2.1 ∧
    (mouseUpApply g
      (touchEndApply g (touchStartApply g s [t] (e :: rest)).2.1 [t] (e :: rest)).2.1
      muPath).1 = [] ∧
    (mouseUpApply g
      (touchEndApply g (touchStartApply g s [t] (e :: rest)).2.1 [t] (e :: rest)).2.1
      muPath).2.lastTapTarget = none := by
  cases hS : g.onTapStart <;> cases hE : g.onTapEnd <;>
    simp [touchStartApply, touchEndApply, touchAlignPaths, mouseDownApply, mouseUpApply,
      countTaps, htap, hS, hE]

/-- Witness for C2: exactly one tap is dispatched across the concrete
touch tap on elemA followed by its synthetic mousedown and mouseup. -/
theorem tapEvent_touch_suppression_wit :
    countTaps (touchEndApply allGates
      (touchStartApply allGates initialTapState [sampleTouch] (elemA :: [docNode])).2.1
      [sampleTouch] (elemA :: [docNode])).1 = 1 :=
  (tapEvent_touch_suppression allGates initialTapState sampleTouch elemA [docNode]
    [elemA, docNode] [elemA, docNode] true rfl).2.2.1

/-- C3 counterexample: a touch tap on elemA dispatches tapend and tap
whose source info is a Touch, not an Event, so even when a listener
prevents the synthetic default, dispatchTapOnTarget does not prevent the
native touchend's default. -/
theorem tapEvent_cancellation_cx :
    (touchEndApply allGates
        { initialTapState with touchEventPath := [elemA], currentTouch := 7 }
        [sampleTouch] [elemA]).1 =
      [⟨TapType.tapend, some elemA, false⟩, ⟨TapType.tap, some elemA, false⟩] ∧
    (∀ d ∈ (touchEndApply allGates
        { initialTapState with touchEventPath := [elemA], currentTouch := 7 }
        [sampleTouch] [elemA]).1,
      dispatchPreventsNative true d.infoIsEvent = false) := by
  decide

/-- C3 (corrected): cancellation propagates from the synthetic event to
the originating native event exactly on the channels whose source info is
a DOM Event: every dispatch made by the mousedown, mouseup and click
listeners passes the native MouseEvent (so a prevented tap prevents it),
while every dispatch made by the touchstart and touchend listeners passes
a Touch object, on which no native default is ever prevented. -/
theorem tapEvent_cancellation_amended :
    (∀ (g : Gates) (s : TapState) (pres : Bool) (path : List EvtTarget) (d : Dispatched),
        d ∈ (mouseDownApply g s pres path).1 → dispatchPreventsNative true d.infoIsEvent = true) ∧
    (∀ (g : Gates) (s : TapState) (path : List EvtTarget) (d : Dispatched),
        d ∈ (mouseUpApply g s path).1 → dispatchPreventsNative true d.infoIsEvent = true) ∧
    (∀ (g : Gates) (a b : Bool) (c : Int) (path : List EvtTarget) (d : Dispatched),
        d ∈ clickApply g a b c path → dispatchPreventsNative true d.infoIsEvent = true) ∧
    (∀ (g : Gates) (s : TapState) (ts : List Touch) (path : List EvtTarget) (d : Dispatched),
        d ∈ (touchStartApply g s ts path).1 →
          dispatchPreventsNative true d.infoIsEvent = false) ∧
    (∀ (g : Gates) (s : TapState) (ts : List Touch) (path : List EvtTarget) (d : Dispatched),
        d ∈ (touchEndApply g s ts path).1 →
          dispatchPreventsNative true d.infoIsEvent = false) := by
  refine ⟨?_, ?_, ?_, ?_, ?_⟩
  · intro g s pres path d hd
    unfold mouseDownApply at hd
    repeat' split at hd
    all_goals simp_all [dispatchPreventsNative]
  · intro g s path d hd
    simp only [mouseUpApply] at hd
    rcases hscan : tapScan (alignPaths s.mouseEventPath path).1
        (alignPaths s.mouseEventPath path).2 with _ | tt <;>
      rw [hscan] at hd <;>
        repeat' split at hd
    all_goals simp only [List.mem_append, List.mem_singleton, List.mem_cons,
      List.not_mem_nil, or_false, false_or] at hd
    all_goals try (rcases hd with rfl | rfl)
    all_goals simp_all [dispatchPreventsNative]
  · intro g a b c path d hd
    unfold clickApply at hd
    repeat' split at hd
    all_goals simp_all [dispatchPreventsNative]
  · intro g s ts path d hd
    unfold touchStartApply at hd
    repeat' split at hd
    all_goals simp_all [dispatchPreventsNative]
  · intro g s ts path d hd
    simp only [touchEndApply] at hd
    rcases h1 : (touchAlignPaths s.touchEventPath path).2.head? with _ | tt <;>
      rw [h1] at hd
    · simp at hd
    · rcases h2 : ts.head? with _ | tch <;> rw [h2] at hd
      · simp at hd
      · repeat' split at hd
        all_goals simp only [List.mem_append, List.mem_singleton, List.mem_cons,
          List.not_mem_nil, or_false, false_or] at hd
        all_goals try (rcases hd with rfl | rfl)
        all_goals simp_all [dispatchPreventsNative]

/-- Witness for C3: the tapstart dispatched by a concrete mousedown
carries an Event source info, so a prevented synthetic default prevents
the native default. -/
theorem tapEvent_cancellation_amended_wit :
    dispatchPreventsNative true
      (⟨TapType.tapstart, some elemA, true⟩ : Dispatched).infoIsEvent = true :=
  tapEvent_cancellation_amended.1 allGates initialTapState true [elemA]
    ⟨TapType.tapstart, some elemA, true⟩ (by decide)

/-- C4 counterexample: when the stored path is longer than the current
path, the mouse reconciliation trims the stored path but the touch
reconciliation leaves it untouched, so the two reconciliations are not
equal as functions of the two paths. -/
theorem tapEvent_touch_align_cx :
    touchAlignPaths [elemA, elemB] [elemC] ≠ alignPaths [elemA, elemB] [elemC] := by
  decide

/-- C4 (corrected): the touch reconciliation trims only the current
path: its stored component is always returned untrimmed, its current
component always agrees with the mouse reconciliation's, and the two
reconciliations coincide exactly whenever the stored path is not longer
than the current path. -/
theorem tapEvent_touch_align_amended (stored path : List EvtTarget) :
    (touchAlignPaths stored path).1 = stored ∧
    (touchAlignPaths stored path).2 = (alignPaths stored path).2 ∧
    (stored.length ≤ path.length → touchAlignPaths stored path = alignPaths stored path) := by
  unfold touchAlignPaths alignPaths
  rcases lt_trichotomy stored.length path.length with h | h | h
  · rw [if_pos h, if_pos h]
    exact ⟨rfl, rfl, fun _ => rfl⟩
  · rw [if_neg (by omega), if_neg (by omega), if_neg (by omega)]
    exact ⟨rfl, rfl, fun _ => rfl⟩
  · rw [if_neg (by omega), if_neg (by omega), if_pos h]
    exact ⟨rfl, rfl, fun hc => absurd hc (by omega)⟩

/-- Witness for C4: the two reconciliations agree on a concrete pair
where the stored path is shorter than the current one. -/
theorem tapEvent_touch_align_amended_wit :
    touchAlignPaths [elemA] [elemB, elemC] = alignPaths [elemA] [elemB, elemC] :=
  (tapEvent_touch_align_amended [elemA] [elemB, elemC]).2.2 (by decide)

/-- C5 (corrected): the touchend listener resets currentTouch to -1 on
every exit path, for all inputs (the try block's finally clause), so a
malformed touchend can never leave the tracker believing a touch is
still active; but the listener does not absorb the fault: with no catch
clause, the exception raised while reading the missing touch data
propagates out of the listener, as the concrete malformed event shows. -/
theorem tapEvent_touchend_cleanup :
    (∀ (g : Gates) (s : TapState) (ts : List Touch) (path : List EvtTarget),
        (touchEndApply g s ts path).2.1.currentTouch = -1) ∧
    (touchEndApply allGates { initialTapState with touchEventPath := [elemA] } [] [elemA]).2.2
      = true := by
  constructor
  · intro g s ts path
    simp only [touchEndApply]
    rcases h1 : (touchAlignPaths s.touchEventPath path).2.head? with _ | tt
    · simp
    · rcases h2 : ts.head? with _ | tch
      · simp
      · repeat' split
        all_goals simp
  · decide

/-- C5 counterexample: a touchend whose changedTouches list is empty but
whose path still yields a tap target makes the listener raise while
reading the touch data; the exception leaves the listener (refuting that
the fault is absorbed), even though currentTouch is still reset. -/
theorem tapEvent_touchend_absorb_cx :
    (touchEndApply allGates { initialTapState with touchEventPath := [elemA] } [] [elemA]).2.2
      = true ∧
    (touchEndApply allGates
      { initialTapState with touchEventPath := [elemA] } [] [elemA]).2.1.currentTouch = -1 := by
  decide

/-- C6 (confirmed): for touchstart then touchmove then touchend on the
same element, the touchmove unconditionally sets currentTouch to -1, so
the sequence dispatches tapstart and tapend but no tap, since the
touchend identifier no longer equals currentTouch. -/
theorem tapEvent_move_cancels_tap (g : Gates) (s : TapState) (t : Touch)
    (e : EvtTarget) (rest : List EvtTarget)
    (hid : t.identifier ≠ -1) (hS : g.onTapStart = true) (hE : g.onTapEnd = true) :
    (touchStartApply g s [t] (e :: rest)).1 = [⟨TapType.tapstart, some e, false⟩] ∧
    (touchMoveApply (touchStartApply g s [t] (e :: rest)).2.1).currentTouch = -1 ∧
    (touchEndApply g (touchMoveApply (touchStartApply g s [t] (e :: rest)).2.1)
        [t] (e :: rest)).1 = [⟨TapType.tapend, some e, false⟩] ∧
    countTaps ((touchStartApply g s [t] (e :: rest)).1 ++
      (touchEndApply g (touchMoveApply (touchStartApply g s [t] (e :: rest)).2.1)
        [t] (e :: rest)).1) = 0 := by
  simp [touchStartApply, touchMoveApply, touchEndApply, touchAlignPaths, countTaps,
    hid, hS, hE]

/-- Witness for C6: the concrete sequence on elemA with touch identifier
7 dispatches tapstart and tapend and zero taps. -/
theorem tapEvent_move_cancels_tap_wit :
    (touchStartApply allGates initialTapState [sampleTouch] (elemA :: [docNode])).1
      = [⟨TapType.tapstart, some elemA, false⟩] ∧
    (touchMoveApply
      (touchStartApply allGates initialTapState [sampleTouch]
        (elemA :: [docNode])).2.1).currentTouch = -1 ∧
    (touchEndApply allGates
      (touchMoveApply
        (touchStartApply allGates initialTapState [sampleTouch] (elemA :: [docNode])).2.1)
      [sampleTouch] (elemA :: [docNode])).1 = [⟨TapType.tapend, some elemA, false⟩] ∧
    countTaps ((touchStartApply allGates initialTapState [sampleTouch] (elemA :: [docNode])).1 ++
      (touchEndApply allGates
        (touchMoveApply
          (touchStartApply allGates initialTapState [sampleTouch] (elemA :: [docNode])).2.1)
        [sampleTouch] (elemA :: [docNode])).1) = 0 :=
  tapEvent_move_cancels_tap allGates initialTapState sampleTouch elemA [docNode]
    (by decide) rfl rfl

/-- C7 (confirmed): installing on a fresh target claims all three
on-event properties with every gate enabled; installing on a target
whose three properties are all claimed installs nothing; installing
after any installation installs nothing; a property already present
disables that gesture's gate; and every handler with a disabled gate
dispatches no event of that gesture type, so a second installation
contributes no events and one physical tap still yields one tap. -/
theorem tapEvent_idempotent_install :
    (applyEventInstall ⟨false, false, false⟩ =
      (some ⟨true, true, true⟩, ⟨true, true, true⟩)) ∧
    (applyEventInstall ⟨true, true, true⟩ = (none, ⟨true, true, true⟩)) ∧
    (∀ t : TapSupportProps, (applyEventInstall (applyEventInstall t).2).1 = none) ∧
    (∀ t : TapSupportProps, t.ontap = true → (installGates t).onTap = false) ∧
    (∀ t : TapSupportProps, t.ontapstart = true → (installGates t).onTapStart = false) ∧
    (∀ t : TapSupportProps, t.ontapend = true → (installGates t).onTapEnd = false) ∧
    (∀ (g : Gates) (s : TapState) (path : List EvtTarget), g.onTap = false →
      countType TapType.tap (mouseUpApply g s path).1 = 0) ∧
    (∀ (g : Gates) (s : TapState) (ts : List Touch) (path : List EvtTarget), g.onTap = false →
      countType TapType.tap (touchEndApply g s ts path).1 = 0) ∧
    (∀ (g : Gates) (a b : Bool) (c : Int) (path : List EvtTarget), g.onTap = false →
      countType TapType.tap (clickApply g a b c path) = 0) ∧
    (∀ (g : Gates) (s : TapState) (pres : Bool) (path : List EvtTarget), g.onTapStart = false →
      countType TapType.tapstart (mouseDownApply g s pres path).1 = 0) ∧
    (∀ (g : Gates) (s : TapState) (ts : List Touch) (path : List EvtTarget),
      g.onTapStart = false →
      countType TapType.tapstart (touchStartApply g s ts path).1 = 0) ∧
    (∀ (g : Gates) (s : TapState) (path : List EvtTarget), g.onTapEnd = false →
      countType TapType.tapend (mouseUpApply g s path).1 = 0) ∧
    (∀ (g : Gates) (s : TapState) (ts : List Touch) (path : List EvtTarget), g.onTapEnd = false →
      countType TapType.tapend (touchEndApply g s ts path).1 = 0) := by
  refine ⟨by decide, by decide, ?_, ?_, ?_, ?_, ?_, ?_, ?_, ?_, ?_, ?_, ?_⟩
  · intro t
    rcases t with ⟨a, b, c⟩
    cases a <;> cases b <;> cases c <;> decide
  · intro t h
    simp [installGates, h]
  · intro t h
    simp [installGates, h]
  · intro t h
    simp [installGates, h]
  · intro g s path h
    simp only [mouseUpApply]
    rcases hscan : tapScan (alignPaths s.mouseEventPath path).1
        (alignPaths s.mouseEventPath path).2 with _ | tt <;>
      repeat' split
    all_goals simp_all [countType]
  · intro g s ts path h
    simp only [touchEndApply]
    rcases h1 : (touchAlignPaths s.touchEventPath path).2.head? with _ | tt
    · simp [countType]
    · rcases h2 : ts.head? with _ | tch
      · simp [countType]
      · repeat' split
        all_goals simp_all [countType]
  · intro g a b c path h
    simp [clickApply, countType, h]
  · intro g s pres path h
    simp only [mouseDownApply]
    repeat' split
    all_goals simp_all [countType]
  · intro g s ts path h
    simp only [touchStartApply]
    repeat' split
    all_goals simp_all [countType]
  · intro g s path h
    simp only [mouseUpApply]
    rcases hscan : tapScan (alignPaths s.mouseEventPath path).1
        (alignPaths s.mouseEventPath path).2 with _ | tt <;>
      repeat' split
    all_goals simp_all [countType]
  · intro g s ts path h
    simp only [touchEndApply]
    rcases h1 : (touchAlignPaths s.touchEventPath path).2.head? with _ | tt
    · simp [countType]
    · rcases h2 : ts.head? with _ | tch
      · repeat' split
        all_goals simp_all [countType]
      · repeat' split
        all_goals simp_all [countType]

/-- Witness for C7: a target with only ontap claimed yields a gate set
with tap disabled, and the mouseup handler under those gates dispatches
no tap on a concrete path. -/
theorem tapEvent_idempotent_install_wit :
    countType TapType.tap
      (mouseUpApply ⟨false, true, true⟩ initialTapState [elemA]).1 = 0 :=
  tapEvent_idempotent_install.2.2.2.2.2.2.1 ⟨false, true, true⟩ initialTapState [elemA] rfl

/-- C8 (confirmed): a keyup of Enter or Space whose innermost path
target is an HTML element matching role=button and not matching the
natively-activatable set prevents the key event's default and clicks
that element, and the resulting zero-detail click (outside the legacy
engine's pointer-event case) dispatches exactly one tap on it; for an
innermost target matching a natively-activatable element the keyup
handler neither prevents default nor clicks. -/
theorem tapEvent_keyboard_activation (g : Gates) (key : String)
    (e e2 : EvtTarget) (rest rest2 rest3 : List EvtTarget) (isIE isPtr : Bool)
    (hkey : key = "Enter" ∨ key = "Spacebar" ∨ key = " ")
    (hH : e.isHTMLElement = true) (hR : e.roleButton = true) (hN : e.nativeActivatable = false)
    (hIE : (isIE && isPtr) = false) (htap : g.onTap = true)
    (hnat : e2.nativeActivatable = true) :
    keyupApply key (e :: rest) = (true, some e) ∧
    clickApply g isIE isPtr 0 (e :: rest2) = [⟨TapType.tap, some e, true⟩] ∧
    keyupApply key (e2 :: rest3) = (false, none) := by
  refine ⟨?_, ?_, ?_⟩
  · unfold keyupApply
    rw [if_pos hkey]
    simp [onEnterOrSpacebar, hH, hR, hN]
  · simp [clickApply, isButtonEnterOrSpace, hIE, htap]
  · unfold keyupApply
    rw [if_pos hkey]
    simp [onEnterOrSpacebar, hnat]

/-- Witness for C8: Enter on a role=button div prevents default and
clicks it, the zero-detail click taps it, and Enter on a native button
does nothing in this handler. -/
theorem tapEvent_keyboard_activation_wit :
    keyupApply "Enter" (roleButtonDiv :: []) = (true, some roleButtonDiv) ∧
    clickApply allGates false false 0 (roleButtonDiv :: []) =
      [⟨TapType.tap, some roleButtonDiv, true⟩] ∧
    keyupApply "Enter" (nativeButton :: []) = (false, none) :=
  tapEvent_keyboard_activation allGates "Enter" roleButtonDiv nativeButton [] [] []
    false false (Or.inl rfl) rfl rfl rfl rfl rfl rfl

/-- C9 (confirmed): the click listener is the only tap-dispatching
handler with no existence guard on its target: a keyboard-recognised
click (detail 0, not the legacy-engine pointer case) with an empty
composed path reaches the dispatch routine with an absent target, while
every event dispatched by the mousedown, mouseup, touchstart and
touchend listeners carries a present target. -/
theorem tapEvent_click_missing_target :
    clickApply allGates false false 0 [] = [⟨TapType.tap, none, true⟩] ∧
    (∀ (g : Gates) (s : TapState) (pres : Bool) (path : List EvtTarget) (d : Dispatched),
        d ∈ (mouseDownApply g s pres path).1 → d.target.isSome = true) ∧
    (∀ (g : Gates) (s : TapState) (path : List EvtTarget) (d : Dispatched),
        d ∈ (mouseUpApply g s path).1 → d.target.isSome = true) ∧
    (∀ (g : Gates) (s : TapState) (ts : List Touch) (path : List EvtTarget) (d : Dispatched),
        d ∈ (touchStartApply g s ts path).1 → d.target.isSome = true) ∧
    (∀ (g : Gates) (s : TapState) (ts : List Touch) (path : List EvtTarget) (d : Dispatched),
        d ∈ (touchEndApply g s ts path).1 → d.target.isSome = true) := by
  refine ⟨by decide, ?_, ?_, ?_, ?_⟩
  · intro g s pres path d hd
    unfold mouseDownApply at hd
    repeat' split at hd
    all_goals simp_all
  · intro g s path d hd
    simp only [mouseUpApply] at hd
    rcases hscan : tapScan (alignPaths s.mouseEventPath path).1
        (alignPaths s.mouseEventPath path).2 with _ | tt <;>
      rw [hscan] at hd <;>
        repeat' split at hd
    all_goals simp only [List.mem_append, List.mem_singleton, List.mem_cons,
      List.not_mem_nil, or_false, false_or] at hd
    all_goals try (rcases hd with rfl | rfl)
    all_goals simp_all
  · intro g s ts path d hd
    unfold touchStartApply at hd
    repeat' split at hd
    all_goals simp_all
  · intro g s ts path d hd
    simp only [touchEndApply] at hd
    rcases h1 : (touchAlignPaths s.touchEventPath path).2.head? with _ | tt <;>
      rw [h1] at hd
    · simp at hd
    · rcases h2 : ts.head? with _ | tch <;> rw [h2] at hd
      · simp at hd
      · repeat' split at hd
        all_goals simp only [List.mem_append, List.mem_singleton, List.mem_cons,
          List.not_mem_nil, or_false, false_or] at hd
        all_goals try (rcases hd with rfl | rfl)
        all_goals simp_all

/-- Witness for C9: the tapstart dispatched by a concrete mousedown has
a present target. -/
theorem tapEvent_click_missing_target_wit :
    (⟨TapType.tapstart, some elemA, true⟩ : Dispatched).target.isSome = true :=
  tapEvent_click_missing_target.2.1 allGates initialTapState true [elemA]
    ⟨TapType.tapstart, some elemA, true⟩ (by decide)

/-- C10 (confirmed): for every track state and mouse position, hitTest
returns -1 or an index with 0 <= index < laneCount, and a non-negative
index only when the position lies inside that lane's content region,
getContentStart index <= mousePixel < getContentEnd index; margins and
positions outside the track yield -1. -/
theorem track_hitTest_sound (t : Track) (p : ℚ) :
    t.hitTest p = -1 ∨
      (0 ≤ t.hitTest p ∧ t.hitTest p < (t.laneCount : Int) ∧
        t.getContentStart (t.hitTest p).toNat ≤ p ∧
        p < t.getContentEnd (t.hitTest p).toNat) := by
  simp only [Track.hitTest]
  by_cases h0 : t.trackSize / (t.laneCount : ℚ) = 0
  · rw [if_pos h0]
    left
    rfl
  · rw [if_neg h0]
    by_cases h1 : 0 ≤ ⌊p / (t.trackSize / (t.laneCount : ℚ))⌋ ∧
        ⌊p / (t.trackSize / (t.laneCount : ℚ))⌋ < (t.laneCount : Int)
    · rw [if_pos h1]
      by_cases h2 : p < t.getContentStart (⌊p / (t.trackSize / (t.laneCount : ℚ))⌋).toNat ∨
          t.getContentEnd (⌊p / (t.trackSize / (t.laneCount : ℚ))⌋).toNat ≤ p
      · rw [if_pos h2]
        left
        rfl
      · rw [if_neg h2]
        push_neg at h2
        right
        exact ⟨h1.1, h1.2, h2.1, h2.2⟩
    · rw [if_neg h1]
      left
      rfl
